import Mathlib

/-!
Shallow embedding of the rsln netlink encoding/decoding layer
(`src/handle/rule.rs`, `src/types/rule.rs`, `src/types/sock_diag.rs`,
`src/handle/sock_diag.rs`).

Bytes are modelled as `Nat` values (< 256 on real inputs), buffers as
`List Nat`.  Machine integers are `Nat` / `Int` with explicit truncation
where the source casts.  Fallible Rust code (`bail!`, `unwrap` on a
`Result`) is modelled with `Except String`.
-/

namespace Rsln

/-- `k` little-endian bytes of `v` (Rust `to_ne_bytes` on a little-endian
host, the platform assumed throughout the spec's "host byte order"). -/
def leBytes : Nat → Nat → List Nat
  | 0, _ => []
  | k + 1, v => (v % 256) :: leBytes k (v / 256)

/-- 2 big-endian bytes of `v` (Rust `u16::to_be_bytes`). -/
def beBytes2 (v : Nat) : List Nat := [v / 256 % 256, v % 256]

/-- Read `k` bytes of `buf` at offset `off` as a little-endian integer
(Rust `uN::from_ne_bytes` on a little-endian host). -/
def leRead (buf : List Nat) (off : Nat) : Nat → Nat
  | 0 => 0
  | k + 1 => buf.getD off 0 + 256 * leRead buf (off + 1) k

theorem leBytes_length (k v : Nat) : (leBytes k v).length = k := by
  induction k generalizing v with
  | zero => rfl
  | succ k ih => simp [leBytes, ih]

/-- libc::AF_INET -/
def AF_INET : Nat := 2
/-- libc::AF_INET6 -/
def AF_INET6 : Nat := 10
/-- libc::RTPROT_BOOT -/
def RTPROT_BOOT : Nat := 3
/-- libc::RT_SCOPE_UNIVERSE -/
def RT_SCOPE_UNIVERSE : Nat := 0
/-- libc::RT_TABLE_UNSPEC -/
def RT_TABLE_UNSPEC : Nat := 0
/-- libc::RTN_UNICAST -/
def RTN_UNICAST : Nat := 1
/-- libc::RTA_DST -/
def RTA_DST : Nat := 1
/-- libc::RTA_SRC -/
def RTA_SRC : Nat := 2
/-- libc::NLM_F_CREATE -/
def NLM_F_CREATE : Nat := 0x400
/-- libc::NLM_F_EXCL -/
def NLM_F_EXCL : Nat := 0x200
/-- libc::NLM_F_ACK -/
def NLM_F_ACK : Nat := 0x4
/-- libc::RTM_NEWRULE -/
def RTM_NEWRULE : Nat := 32
/-- libc::RTM_DELRULE -/
def RTM_DELRULE : Nat := 33
/-- src/handle/rule.rs: const FIB_RULE_INVERT -/
def FIB_RULE_INVERT : Nat := 0x2

/-- An IP network prefix (`ipnet::IpNet`): the address octets (4 for v4,
16 for v6) plus a prefix length. -/
inductive IpNet where
  | v4 (octets : List Nat) (prefixLen : Nat)
  | v6 (octets : List Nat) (prefixLen : Nat)
deriving DecidableEq

def IpNet.prefixLen : IpNet → Nat
  | .v4 _ p => p
  | .v6 _ p => p

def IpNet.octets : IpNet → List Nat
  | .v4 o _ => o
  | .v6 o _ => o

/-- Address family an `IpNet` lowers to in `RuleHandle::handle`. -/
def ipNetFamily : IpNet → Nat
  | .v4 _ _ => AF_INET
  | .v6 _ _ => AF_INET6

/-- src/types/rule.rs: `RulePortRange`. -/
structure RulePortRange where
  start : Nat
  «end» : Nat
deriving DecidableEq

/-- src/types/rule.rs: `RuleUIDRange`. -/
structure RuleUIDRange where
  start : Nat
  «end» : Nat
deriving DecidableEq

/-- src/types/rule.rs: `Rule`.  Strings are modelled by their byte lists. -/
structure Rule where
  priority : Int
  family : Int
  table : Int
  mark : Nat
  mask : Option Nat
  tos : Nat
  tun_id : Nat
  goto : Int
  src : Option IpNet
  dst : Option IpNet
  flow : Int
  iif_name : List Nat
  oif_name : List Nat
  suppress_ifgroup : Int
  suppress_prefixlen : Int
  invert : Bool
  dport : Option RulePortRange
  sport : Option RulePortRange
  ip_proto : Int
  uid_range : Option RuleUIDRange
  protocol : Nat
  rule_type : Nat
deriving DecidableEq

/-- src/types/rule.rs: `Rule::new()` — all-default rule with the sentinel
`-1` fields. -/
def Rule.new : Rule where
  priority := -1
  family := 0
  table := 0
  mark := 0
  mask := none
  tos := 0
  tun_id := 0
  goto := -1
  src := none
  dst := none
  flow := -1
  iif_name := []
  oif_name := []
  suppress_ifgroup := -1
  suppress_prefixlen := -1
  invert := false
  dport := none
  sport := none
  ip_proto := 0
  uid_range := none
  protocol := 0
  rule_type := 0

/-- Modelled from the spec: a TLV attribute (`RouteAttr` of the missing
`src/types/message.rs`) is a 16-bit type plus a payload; `RouteAttr::new`
stores exactly the type code and payload bytes it is given. -/
structure RouteAttr where
  rta_type : Nat
  payload : List Nat
deriving DecidableEq

def RouteAttr.new (ty : Nat) (payload : List Nat) : RouteAttr :=
  ⟨ty, payload⟩

/-- Modelled from the spec: the Rule Message Layout (`RouteMessage` of the
missing `src/types/message.rs`): eight one-byte fields then a 32-bit flags
word; `RouteMessage::new` zero-initializes. -/
structure RouteMessage where
  family : Nat
  dst_len : Nat
  src_len : Nat
  tos : Nat
  table : Nat
  protocol : Nat
  scope : Nat
  route_type : Nat
  flags : Nat
deriving DecidableEq

def RouteMessage.new : RouteMessage :=
  ⟨0, 0, 0, 0, 0, 0, 0, 0, 0⟩

/-- Rust `i32 as u8` (two's-complement truncation to 8 bits). -/
def i32AsU8 (i : Int) : Nat := (i % 256).toNat

/-- src/handle/rule.rs lines 45-69: the fixed-layout initialization of the
`RouteMessage` (steps before the attribute section). -/
def msgInit (rule : Rule) (flags : Nat) : RouteMessage :=
  let msg := { RouteMessage.new with
    family := AF_INET
    protocol := RTPROT_BOOT
    scope := RT_SCOPE_UNIVERSE
    table := RT_TABLE_UNSPEC
    route_type := rule.rule_type }
  let msg := if msg.route_type = 0 ∧ 0 < flags &&& NLM_F_CREATE then
    { msg with route_type := RTN_UNICAST } else msg
  let msg := if rule.invert then
    { msg with flags := msg.flags ||| FIB_RULE_INVERT } else msg
  let msg := if rule.family ≠ 0 then
    { msg with family := i32AsU8 rule.family } else msg
  let msg := if 0 ≤ rule.table ∧ rule.table < 256 then
    { msg with table := rule.table.toNat } else msg
  if rule.tos ≠ 0 then { msg with tos := rule.tos % 256 } else msg

/-- src/handle/rule.rs lines 74-85: the destination-prefix step; returns the
updated layout, the attributes pushed so far and the pinned `dst_family`. -/
def dstStep (rule : Rule) (msg : RouteMessage) :
    RouteMessage × List RouteAttr × Nat :=
  match rule.dst with
  | none => (msg, [], 0)
  | some dst =>
    let family := ipNetFamily dst
    let dst_data := dst.octets
    ({ msg with dst_len := dst.prefixLen, family := family },
     [RouteAttr.new RTA_DST dst_data], family)

/-- src/handle/rule.rs lines 87-100: the source-prefix step; bails with the
mixed-family error when a pinned destination family differs. -/
def srcStep (rule : Rule) (msg : RouteMessage) (dst_family : Nat) :
    Except String (RouteMessage × List RouteAttr) :=
  match rule.src with
  | none => .ok (msg, [])
  | some src =>
    let family := ipNetFamily src
    let src_data := src.octets
    let msg := { msg with src_len := src.prefixLen, family := family }
    if dst_family ≠ 0 ∧ dst_family ≠ family then
      .error "source and destination ip are not the same IP family"
    else
      .ok (msg, [RouteAttr.new RTA_SRC src_data])

/-- src/handle/rule.rs lines 102-104: priority attribute. -/
def priorityAttrs (rule : Rule) : List RouteAttr :=
  if 0 ≤ rule.priority then
    [RouteAttr.new 6 (leBytes 4 rule.priority.toNat)] else []

/-- src/handle/rule.rs lines 106-111: mark and mask attributes, both with
type code 10. -/
def markAttrs (rule : Rule) : List RouteAttr :=
  (if rule.mark ≠ 0 ∨ rule.mask.isSome then
    [RouteAttr.new 10 (leBytes 4 rule.mark)] else []) ++
  (match rule.mask with
   | some mask => [RouteAttr.new 10 (leBytes 4 mask)]
   | none => [])

/-- src/handle/rule.rs lines 113-115: flow attribute. -/
def flowAttrs (rule : Rule) : List RouteAttr :=
  if 0 ≤ rule.flow then
    [RouteAttr.new 11 (leBytes 4 rule.flow.toNat)] else []

/-- src/handle/rule.rs lines 117-119: tunnel-id attribute. -/
def tunAttrs (rule : Rule) : List RouteAttr :=
  if 0 < rule.tun_id then
    [RouteAttr.new 12 (leBytes 4 rule.tun_id)] else []

/-- src/handle/rule.rs lines 121-123: wide table attribute for tables that
do not fit the one-byte layout field. -/
def tableWideAttrs (rule : Rule) : List RouteAttr :=
  if 256 ≤ rule.table then
    [RouteAttr.new 15 (leBytes 4 rule.table.toNat)] else []

/-- src/handle/rule.rs lines 124-137: suppress attributes, gated on the
layout's one-byte table field being positive. -/
def suppressAttrs (rule : Rule) (tableByte : Nat) : List RouteAttr :=
  if 0 < tableByte then
    (if 0 ≤ rule.suppress_prefixlen then
      [RouteAttr.new 14 (leBytes 4 rule.suppress_prefixlen.toNat)] else []) ++
    (if 0 ≤ rule.suppress_ifgroup then
      [RouteAttr.new 13 (leBytes 4 rule.suppress_ifgroup.toNat)] else [])
  else []

/-- src/handle/rule.rs lines 139-142: interface-in name attribute. -/
def iifAttrs (rule : Rule) : List RouteAttr :=
  if rule.iif_name ≠ [] then [RouteAttr.new 3 rule.iif_name] else []

/-- src/handle/rule.rs lines 143-146: interface-out name attribute. -/
def oifAttrs (rule : Rule) : List RouteAttr :=
  if rule.oif_name ≠ [] then [RouteAttr.new 17 rule.oif_name] else []

/-- src/handle/rule.rs lines 148-151: goto attribute. -/
def gotoAttrs (rule : Rule) : List RouteAttr :=
  if 0 ≤ rule.goto then
    [RouteAttr.new 4 (leBytes 4 rule.goto.toNat)] else []

/-- src/handle/rule.rs lines 153-155: ip-proto attribute. -/
def ipProtoAttrs (rule : Rule) : List RouteAttr :=
  if 0 < rule.ip_proto then
    [RouteAttr.new 22 (leBytes 4 rule.ip_proto.toNat)] else []

/-- src/handle/rule.rs lines 157-162: destination port-range attribute. -/
def dportAttrs (rule : Rule) : List RouteAttr :=
  match rule.dport with
  | some dport =>
    [RouteAttr.new 24 (leBytes 2 dport.start ++ leBytes 2 dport.«end»)]
  | none => []

/-- src/handle/rule.rs lines 164-169: source port-range attribute. -/
def sportAttrs (rule : Rule) : List RouteAttr :=
  match rule.sport with
  | some sport =>
    [RouteAttr.new 23 (leBytes 2 sport.start ++ leBytes 2 sport.«end»)]
  | none => []

/-- src/handle/rule.rs lines 171-176: uid-range attribute. -/
def uidAttrs (rule : Rule) : List RouteAttr :=
  match rule.uid_range with
  | some uid_range =>
    [RouteAttr.new 20 (leBytes 4 uid_range.start ++ leBytes 4 uid_range.«end»)]
  | none => []

/-- src/handle/rule.rs lines 178-180: protocol attribute. -/
def protocolAttrs (rule : Rule) : List RouteAttr :=
  if 0 < rule.protocol then [RouteAttr.new 21 [rule.protocol]] else []

/-- src/handle/rule.rs lines 102-180: the attribute pushes that follow the
source/destination steps, in source order.  `tableByte` is the layout's
one-byte table field at the time of the suppress check. -/
def restAttrs (rule : Rule) (tableByte : Nat) : List RouteAttr :=
  priorityAttrs rule ++ markAttrs rule ++ flowAttrs rule ++ tunAttrs rule ++
  tableWideAttrs rule ++ suppressAttrs rule tableByte ++ iifAttrs rule ++
  oifAttrs rule ++ gotoAttrs rule ++ ipProtoAttrs rule ++ dportAttrs rule ++
  sportAttrs rule ++ uidAttrs rule ++ protocolAttrs rule

/-- src/handle/rule.rs: `RuleHandle::handle` up to (but not including) the
transport dispatch: lowers a `Rule` to the final layout plus the ordered
attribute list, or fails with the mixed-family error. -/
def handleRule (rule : Rule) (flags : Nat) :
    Except String (RouteMessage × List RouteAttr) :=
  let msg := msgInit rule flags
  let (msg, dstAttrs, dst_family) := dstStep rule msg
  match srcStep rule msg dst_family with
  | .error e => .error e
  | .ok (msg, srcAttrs) =>
    let attrs := dstAttrs ++ srcAttrs ++ restAttrs rule msg.table
    let msg := if 0 ≤ rule.goto then { msg with route_type := 2 } else msg
    .ok (msg, attrs)

/-- src/handle/rule.rs: `RuleHandle::add` — lowers with the add flags and
only on success hands the result to the Socket Transport. -/
def RuleHandle.add
    (transport : RouteMessage → List RouteAttr → Except String Unit)
    (rule : Rule) : Except String Unit :=
  match handleRule rule (NLM_F_CREATE ||| NLM_F_EXCL ||| NLM_F_ACK) with
  | .error e => .error e
  | .ok (msg, attrs) => transport msg attrs

/-- src/handle/rule.rs: `RuleHandle::del` — lowers with the delete flags and
only on success hands the result to the Socket Transport. -/
def RuleHandle.del
    (transport : RouteMessage → List RouteAttr → Except String Unit)
    (rule : Rule) : Except String Unit :=
  match handleRule rule NLM_F_ACK with
  | .error e => .error e
  | .ok (msg, attrs) => transport msg attrs

/-- The mixed-family error message of src/handle/rule.rs line 96. -/
def mixedFamilyMsg : String :=
  "source and destination ip are not the same IP family"

/-! ## Socket diagnostics (src/types/sock_diag.rs) -/

/-- src/types/sock_diag.rs: INET_DIAG_MEMINFO. -/
def INET_DIAG_MEMINFO : Nat := 1
/-- src/types/sock_diag.rs: INET_DIAG_INFO. -/
def INET_DIAG_INFO : Nat := 2
/-- src/types/sock_diag.rs: INET_DIAG_VEGASINFO. -/
def INET_DIAG_VEGASINFO : Nat := 3
/-- src/types/sock_diag.rs: INET_DIAG_BBRINFO. -/
def INET_DIAG_BBRINFO : Nat := 16
/-- libc::IPPROTO_TCP. -/
def IPPROTO_TCP : Nat := 6
/-- libc::IPPROTO_UDP. -/
def IPPROTO_UDP : Nat := 17

/-- `std::net::IpAddr`: a v4 address as four octets or a v6 address as its
16 octets. -/
inductive IpAddr where
  | v4 (a b c d : Nat)
  | v6 (octets : List Nat)
deriving DecidableEq

/-- src/types/sock_diag.rs: `SockDiagId`. -/
structure SockDiagId where
  src_port : Nat
  dst_port : Nat
  src_ip : IpAddr
  dst_ip : IpAddr
  interface : Nat
  cookie : Nat × Nat
deriving DecidableEq

/-- src/types/sock_diag.rs: `SockDiagId::default()`. -/
def SockDiagId.new : SockDiagId where
  src_port := 0
  dst_port := 0
  src_ip := .v4 0 0 0 0
  dst_ip := .v4 0 0 0 0
  interface := 0
  cookie := (0, 0)

/-- src/types/sock_diag.rs: `SockDiagId::LEN`. -/
def SockDiagId.LEN : Nat := 48

/-- src/types/sock_diag.rs: `SockDiagReq`. -/
structure SockDiagReq where
  family : Nat
  protocol : Nat
  ext : Nat
  pad : Nat
  states : Nat
  id : SockDiagId
deriving DecidableEq

/-- src/types/sock_diag.rs: `SockDiagReq::LEN`. -/
def SockDiagReq.LEN : Nat := SockDiagId.LEN + 8

/-- src/types/sock_diag.rs: `impl Attribute for SockDiagReq`:
`serialize`, which bails with "invaild" on a mixed v4/v6 identifier. -/
def SockDiagReq.serialize (r : SockDiagReq) : Except String (List Nat) :=
  match r.id.src_ip, r.id.dst_ip with
  | .v4 a b c d, .v4 a' b' c' d' =>
    .ok ([r.family, r.protocol, r.ext, r.pad] ++ leBytes 4 r.states ++
      beBytes2 r.id.src_port ++ beBytes2 r.id.dst_port ++
      (List.replicate 12 0 ++ [a, b, c, d]) ++
      (List.replicate 12 0 ++ [a', b', c', d']) ++
      leBytes 4 r.id.interface ++
      leBytes 4 r.id.cookie.1 ++ leBytes 4 r.id.cookie.2)
  | .v6 o, .v6 o' =>
    .ok ([r.family, r.protocol, r.ext, r.pad] ++ leBytes 4 r.states ++
      beBytes2 r.id.src_port ++ beBytes2 r.id.dst_port ++ o ++ o' ++
      leBytes 4 r.id.interface ++
      leBytes 4 r.id.cookie.1 ++ leBytes 4 r.id.cookie.2)
  | _, _ => .error "invaild"

/-- src/types/sock_diag.rs: `SockDiagReq::request_tcp_info`. -/
def SockDiagReq.request_tcp_info (family : Nat) : SockDiagReq where
  family := family
  protocol := IPPROTO_TCP
  ext := (1 <<< (INET_DIAG_VEGASINFO - 1)) ||| (1 <<< (INET_DIAG_INFO - 1))
  pad := 0
  states := 0xfff
  id := SockDiagId.new

/-- src/types/sock_diag.rs: `SockDiagReq::request_udp_info`. -/
def SockDiagReq.request_udp_info (family : Nat) : SockDiagReq where
  family := family
  protocol := IPPROTO_UDP
  ext := (1 <<< (INET_DIAG_VEGASINFO - 1)) ||| (1 <<< (INET_DIAG_INFO - 1)) |||
    (1 <<< (INET_DIAG_MEMINFO - 1))
  pad := 0
  states := 0xfff
  id := SockDiagId.new

/-- src/types/sock_diag.rs: `SockDiag` (fixed response header). -/
structure SockDiag where
  family : Nat
  state : Nat
  timer : Nat
  retrans : Nat
  id : SockDiagId
  expires : Nat
  rqueue : Nat
  wqueue : Nat
  uid : Nat
  inode : Nat
deriving DecidableEq

/-- src/types/sock_diag.rs: `SockDiag::LEN` (= 72). -/
def SockDiag.LEN : Nat := SockDiagId.LEN + 24

/-- src/types/sock_diag.rs: `SockDiag::deserialize`: the short-read guard
followed by the fixed reads of the `ReadBuffer` — ports big-endian, the
first 4 bytes of each 16-byte address slot as an IPv4 address with the
remaining 12 skipped, the rest native-endian 32-bit words. -/
def SockDiag.deserialize (buf : List Nat) : Except String SockDiag :=
  if buf.length < SockDiag.LEN then
    .error ("socket data short read: " ++ toString buf.length)
  else
    .ok { family := buf.getD 0 0
          state := buf.getD 1 0
          timer := buf.getD 2 0
          retrans := buf.getD 3 0
          id := { src_port := 256 * buf.getD 4 0 + buf.getD 5 0
                  dst_port := 256 * buf.getD 6 0 + buf.getD 7 0
                  src_ip := .v4 (buf.getD 8 0) (buf.getD 9 0)
                    (buf.getD 10 0) (buf.getD 11 0)
                  dst_ip := .v4 (buf.getD 24 0) (buf.getD 25 0)
                    (buf.getD 26 0) (buf.getD 27 0)
                  interface := leRead buf 40 4
                  cookie := (leRead buf 44 4, leRead buf 48 4) }
          expires := leRead buf 52 4
          rqueue := leRead buf 56 4
          wqueue := leRead buf 60 4
          uid := leRead buf 64 4
          inode := leRead buf 68 4 }

/-- src/types/sock_diag.rs: `TcpDiag` (the kernel `tcp_info`-style record
bincode-decoded from the "basic info" extension payload). -/
structure TcpDiag where
  state : Nat
  ca_state : Nat
  retransmits : Nat
  probes : Nat
  backoff : Nat
  options : Nat
  scales : Nat
  rate_limit_and_fast_open : Nat
  rto : Nat
  ato : Nat
  snd_mss : Nat
  rcv_mss : Nat
  unacked : Nat
  sacked : Nat
  lost : Nat
  retrans : Nat
  fackets : Nat
  last_data_send : Nat
  last_ack_sent : Nat
  last_data_recv : Nat
  last_ack_recv : Nat
  pmtu : Nat
  rcv_ssthresh : Nat
  rtt : Nat
  rttval : Nat
  snd_ssthresh : Nat
  snd_cwnd : Nat
  advmss : Nat
  reordering : Nat
  rcv_rtt : Nat
  rcv_space : Nat
  total_retrans : Nat
  pacing_rate : Nat
  max_pacing_rate : Nat
  bytes_acked : Nat
  bytes_received : Nat
  segs_out : Nat
  segs_in : Nat
  notsent_bytes : Nat
  min_rtt : Nat
  data_segs_in : Nat
  data_segs_out : Nat
  delivery_rate : Nat
  busy_time : Nat
  rwnd_limited : Nat
  sndbuf_limited : Nat
  delivered : Nat
  delivered_ce : Nat
  bytes_sent : Nat
  bytes_retrans : Nat
  dsack_dups : Nat
  reord_seen : Nat
  rcv_ooopack : Nat
  snd_wnd : Nat
deriving DecidableEq

/-- `TcpDiag::default()`: all fields zero. -/
def TcpDiag.zero : TcpDiag :=
  ⟨0, 0, 0, 0, 0, 0, 0, 0, 0, 0, 0, 0, 0, 0, 0, 0, 0, 0, 0, 0, 0, 0, 0, 0,
   0, 0, 0, 0, 0, 0, 0, 0, 0, 0, 0, 0, 0, 0, 0, 0, 0, 0, 0, 0, 0, 0, 0, 0,
   0, 0, 0, 0, 0, 0⟩

/-- Wire size of `TcpDiag` under bincode's fixed-width encoding:
8 one-byte fields, 24 + 6 + 2 + 4 u32 fields and 4 + 4 + 2 u64 fields. -/
def TcpDiag.LEN : Nat := 232

/-- Models `bincode::deserialize::<TcpDiag>`: fixed-width little-endian
fields in declaration order; fails (source: `unwrap` panics) when the
payload is shorter than the record. -/
def TcpDiag.decode (p : List Nat) : Except String TcpDiag :=
  if p.length < TcpDiag.LEN then .error "bincode: unexpected end of input"
  else
    .ok { state := p.getD 0 0
          ca_state := p.getD 1 0
          retransmits := p.getD 2 0
          probes := p.getD 3 0
          backoff := p.getD 4 0
          options := p.getD 5 0
          scales := p.getD 6 0
          rate_limit_and_fast_open := p.getD 7 0
          rto := leRead p 8 4
          ato := leRead p 12 4
          snd_mss := leRead p 16 4
          rcv_mss := leRead p 20 4
          unacked := leRead p 24 4
          sacked := leRead p 28 4
          lost := leRead p 32 4
          retrans := leRead p 36 4
          fackets := leRead p 40 4
          last_data_send := leRead p 44 4
          last_ack_sent := leRead p 48 4
          last_data_recv := leRead p 52 4
          last_ack_recv := leRead p 56 4
          pmtu := leRead p 60 4
          rcv_ssthresh := leRead p 64 4
          rtt := leRead p 68 4
          rttval := leRead p 72 4
          snd_ssthresh := leRead p 76 4
          snd_cwnd := leRead p 80 4
          advmss := leRead p 84 4
          reordering := leRead p 88 4
          rcv_rtt := leRead p 92 4
          rcv_space := leRead p 96 4
          total_retrans := leRead p 100 4
          pacing_rate := leRead p 104 8
          max_pacing_rate := leRead p 112 8
          bytes_acked := leRead p 120 8
          bytes_received := leRead p 128 8
          segs_out := leRead p 136 4
          segs_in := leRead p 140 4
          notsent_bytes := leRead p 144 4
          min_rtt := leRead p 148 4
          data_segs_in := leRead p 152 4
          data_segs_out := leRead p 156 4
          delivery_rate := leRead p 160 8
          busy_time := leRead p 168 8
          rwnd_limited := leRead p 176 8
          sndbuf_limited := leRead p 184 8
          delivered := leRead p 192 4
          delivered_ce := leRead p 196 4
          bytes_sent := leRead p 200 8
          bytes_retrans := leRead p 208 8
          dsack_dups := leRead p 216 4
          reord_seen := leRead p 220 4
          rcv_ooopack := leRead p 224 4
          snd_wnd := leRead p 228 4 }

/-- src/types/sock_diag.rs: `TcpBbrDiag`. -/
structure TcpBbrDiag where
  bandwidth : Nat
  min_rtt : Nat
  pacing_gain : Nat
  cwnd_gain : Nat
deriving DecidableEq

/-- `TcpBbrDiag::default()`. -/
def TcpBbrDiag.zero : TcpBbrDiag := ⟨0, 0, 0, 0⟩

/-- Models `bincode::deserialize::<TcpBbrDiag>`: one u64 then three u32
fields, little-endian (20 bytes). -/
def TcpBbrDiag.decode (p : List Nat) : Except String TcpBbrDiag :=
  if p.length < 20 then .error "bincode: unexpected end of input"
  else
    .ok { bandwidth := leRead p 0 8
          min_rtt := leRead p 8 4
          pacing_gain := leRead p 12 4
          cwnd_gain := leRead p 16 4 }

/-- src/types/sock_diag.rs: `Memory`. -/
structure Memory where
  rmem : Nat
  wmem : Nat
  fmem : Nat
  tmem : Nat
deriving DecidableEq

/-- `Memory::default()`. -/
def Memory.zero : Memory := ⟨0, 0, 0, 0⟩

/-- Models `bincode::deserialize::<Memory>`: four u32 fields,
little-endian (16 bytes). -/
def Memory.decode (p : List Nat) : Except String Memory :=
  if p.length < 16 then .error "bincode: unexpected end of input"
  else
    .ok { rmem := leRead p 0 4
          wmem := leRead p 4 4
          fmem := leRead p 8 4
          tmem := leRead p 12 4 }

/-- One-step body of the attribute-region walk, structurally recursive on
a fuel bound so that it evaluates; the fuel is consumed once per yielded
attribute and `region.length` always suffices (each step drops ≥ 4
bytes). -/
def routeAttrsFromAux : Nat → List Nat → List RouteAttr
  | 0, _ => []
  | fuel + 1, region =>
    if region.length < 4 then []
    else
      let len := region.getD 0 0 + 256 * region.getD 1 0
      let ty := region.getD 2 0 + 256 * region.getD 3 0
      if len < 4 ∨ region.length < len then []
      else
        RouteAttr.mk ty ((region.drop 4).take (len - 4)) ::
          routeAttrsFromAux fuel (region.drop (4 * ((len + 3) / 4)))

/-- Modelled from the spec: `RouteAttrs::from` of the missing
`src/types/message.rs` walks the attribute region: read a 4-byte header
(16-bit length counting the header, then 16-bit type, host byte order),
take `length - 4` payload bytes, skip to the next 4-byte boundary, and
stop at truncated trailing bytes without yielding them. -/
def routeAttrsFrom (region : List Nat) : List RouteAttr :=
  routeAttrsFromAux region.length region

/-- src/types/sock_diag.rs: `InetDiagTcpResp`. -/
structure InetDiagTcpResp where
  msg : SockDiag
  tcp_diag : TcpDiag
  tcp_bbr : TcpBbrDiag
deriving DecidableEq

/-- src/types/sock_diag.rs: the body of the `for attr in attrs` loop of
`impl From<&[u8]> for InetDiagTcpResp`: the attribute's 16-bit type is cast
`as u8` (truncated mod 256) and matched against the extension codes. -/
def InetDiagTcpResp.step (resp : InetDiagTcpResp) (attr : RouteAttr) :
    Except String InetDiagTcpResp :=
  if attr.rta_type % 256 = INET_DIAG_INFO then
    (TcpDiag.decode attr.payload).map fun d => { resp with tcp_diag := d }
  else if attr.rta_type % 256 = INET_DIAG_BBRINFO then
    (TcpBbrDiag.decode attr.payload).map fun d => { resp with tcp_bbr := d }
  else
    .ok resp

/-- src/types/sock_diag.rs: `impl From<&[u8]> for InetDiagTcpResp`.
The source `unwrap`s both the header parse and each bincode decode; those
panics are modelled as the error escaping to the caller. -/
def InetDiagTcpResp.fromBytes (buf : List Nat) :
    Except String InetDiagTcpResp :=
  match SockDiag.deserialize buf with
  | .error e => .error e
  | .ok msg =>
    let attrs := routeAttrsFrom (buf.drop SockDiag.LEN)
    attrs.foldlM InetDiagTcpResp.step
      { msg := msg, tcp_diag := TcpDiag.zero, tcp_bbr := TcpBbrDiag.zero }

/-- src/types/sock_diag.rs: `InetDiagUdpResp`. -/
structure InetDiagUdpResp where
  msg : SockDiag
  memory : Memory
deriving DecidableEq

/-- src/types/sock_diag.rs: the loop body of
`impl From<&[u8]> for InetDiagUdpResp`. -/
def InetDiagUdpResp.step (resp : InetDiagUdpResp) (attr : RouteAttr) :
    Except String InetDiagUdpResp :=
  if attr.rta_type % 256 = INET_DIAG_MEMINFO then
    (Memory.decode attr.payload).map fun d => { resp with memory := d }
  else
    .ok resp

/-- src/types/sock_diag.rs: `impl From<&[u8]> for InetDiagUdpResp`. -/
def InetDiagUdpResp.fromBytes (buf : List Nat) :
    Except String InetDiagUdpResp :=
  match SockDiag.deserialize buf with
  | .error e => .error e
  | .ok msg =>
    let attrs := routeAttrsFrom (buf.drop SockDiag.LEN)
    attrs.foldlM InetDiagUdpResp.step { msg := msg, memory := Memory.zero }

/-! ## Helper lemmas -/

instance exceptDecEq {ε α : Type} [DecidableEq ε] [DecidableEq α] :
    DecidableEq (Except ε α)
  | .ok a, .ok b => decidable_of_iff (a = b) (by simp)
  | .error e, .error f => decidable_of_iff (e = f) (by simp)
  | .ok _, .error _ => isFalse (by simp)
  | .error _, .ok _ => isFalse (by simp)

/-- The one-byte table field after layout initialization: set from
`rule.table` exactly when `0 ≤ rule.table < 256`, otherwise left at the
unspecified default. -/
theorem msgInit_table (rule : Rule) (flags : Nat) :
    (msgInit rule flags).table =
      if 0 ≤ rule.table ∧ rule.table < 256 then rule.table.toNat
      else RT_TABLE_UNSPEC := by
  unfold msgInit
  dsimp only
  split <;> split <;> split <;> split <;> split <;> rfl

set_option maxHeartbeats 1000000 in
/-- A successful lowering splits the attribute list into the
source/destination attributes followed by `restAttrs`, keeps the one-byte
table field of the initialized layout, and forces route-type 2 when a goto
target is set. -/
theorem handleRule_ok_decomp (rule : Rule) (flags : Nat)
    (msg : RouteMessage) (attrs : List RouteAttr)
    (h : handleRule rule flags = .ok (msg, attrs)) :
    ∃ pre, attrs = pre ++ restAttrs rule (msgInit rule flags).table ∧
      (∀ a ∈ pre, a.rta_type = RTA_DST ∨ a.rta_type = RTA_SRC) ∧
      msg.table = (msgInit rule flags).table ∧
      (0 ≤ rule.goto → msg.route_type = 2) := by
  unfold handleRule dstStep srcStep at h
  rcases hdst : rule.dst with _ | dst <;> rw [hdst] at h <;>
    rcases hsrc : rule.src with _ | src <;> rw [hsrc] at h <;>
    dsimp only at h
  · split at h <;> rename_i hg <;>
      simp only [List.nil_append, Except.ok.injEq, Prod.mk.injEq] at h <;>
      obtain ⟨hm, ha⟩ := h <;> subst hm <;> subst ha
    · exact ⟨[], by simp, by simp, rfl, fun _ => rfl⟩
    · exact ⟨[], by simp, by simp, rfl, fun hgg => absurd hgg hg⟩
  · rw [if_neg (by simp)] at h
    dsimp only at h
    split at h <;> rename_i hg <;>
      simp only [List.nil_append, Except.ok.injEq, Prod.mk.injEq] at h <;>
      obtain ⟨hm, ha⟩ := h <;> subst hm <;> subst ha
    · exact ⟨[RouteAttr.new RTA_SRC src.octets], by simp,
        by simp [RouteAttr.new], rfl, fun _ => rfl⟩
    · exact ⟨[RouteAttr.new RTA_SRC src.octets], by simp,
        by simp [RouteAttr.new], rfl, fun hgg => absurd hgg hg⟩
  · split at h <;> rename_i hg <;>
      simp only [List.nil_append, List.singleton_append, List.cons_append,
        Except.ok.injEq, Prod.mk.injEq] at h <;>
      obtain ⟨hm, ha⟩ := h <;> subst hm <;> subst ha
    · exact ⟨[RouteAttr.new RTA_DST dst.octets], by simp,
        by simp [RouteAttr.new], rfl, fun _ => rfl⟩
    · exact ⟨[RouteAttr.new RTA_DST dst.octets], by simp,
        by simp [RouteAttr.new], rfl, fun hgg => absurd hgg hg⟩
  · by_cases hmix : ipNetFamily dst ≠ 0 ∧ ipNetFamily dst ≠ ipNetFamily src
    · rw [if_pos hmix] at h
      dsimp only at h
      exact absurd h (by simp)
    · rw [if_neg hmix] at h
      dsimp only at h
      split at h <;> rename_i hg <;>
        simp only [List.nil_append, List.singleton_append, List.cons_append,
          Except.ok.injEq, Prod.mk.injEq] at h <;>
        obtain ⟨hm, ha⟩ := h <;> subst hm <;> subst ha
      · exact ⟨[RouteAttr.new RTA_DST dst.octets,
          RouteAttr.new RTA_SRC src.octets], by simp,
          by simp [RouteAttr.new], rfl, fun _ => rfl⟩
      · exact ⟨[RouteAttr.new RTA_DST dst.octets,
          RouteAttr.new RTA_SRC src.octets], by simp,
          by simp [RouteAttr.new], rfl, fun hgg => absurd hgg hg⟩

theorem mem_priorityAttrs {rule : Rule} {a : RouteAttr}
    (h : a ∈ priorityAttrs rule) : a.rta_type = 6 := by
  unfold priorityAttrs at h
  split at h <;> simp_all [RouteAttr.new]

theorem mem_markAttrs {rule : Rule} {a : RouteAttr}
    (h : a ∈ markAttrs rule) : a.rta_type = 10 := by
  unfold markAttrs at h
  rcases List.mem_append.1 h with h | h
  · split at h <;> simp_all [RouteAttr.new]
  · rcases hm : rule.mask with _ | m <;> rw [hm] at h <;>
      simp_all [RouteAttr.new]

theorem mem_flowAttrs {rule : Rule} {a : RouteAttr}
    (h : a ∈ flowAttrs rule) : a.rta_type = 11 := by
  unfold flowAttrs at h
  split at h <;> simp_all [RouteAttr.new]

theorem mem_tunAttrs {rule : Rule} {a : RouteAttr}
    (h : a ∈ tunAttrs rule) : a.rta_type = 12 := by
  unfold tunAttrs at h
  split at h <;> simp_all [RouteAttr.new]

theorem mem_tableWideAttrs {rule : Rule} {a : RouteAttr}
    (h : a ∈ tableWideAttrs rule) : a.rta_type = 15 := by
  unfold tableWideAttrs at h
  split at h <;> simp_all [RouteAttr.new]

theorem mem_suppressAttrs {rule : Rule} {tb : Nat} {a : RouteAttr}
    (h : a ∈ suppressAttrs rule tb) : 0 < tb := by
  unfold suppressAttrs at h
  split at h <;> simp_all

theorem mem_iifAttrs {rule : Rule} {a : RouteAttr}
    (h : a ∈ iifAttrs rule) : a.rta_type = 3 := by
  unfold iifAttrs at h
  split at h <;> simp_all [RouteAttr.new]

theorem mem_oifAttrs {rule : Rule} {a : RouteAttr}
    (h : a ∈ oifAttrs rule) : a.rta_type = 17 := by
  unfold oifAttrs at h
  split at h <;> simp_all [RouteAttr.new]

theorem mem_gotoAttrs {rule : Rule} {a : RouteAttr}
    (h : a ∈ gotoAttrs rule) : a.rta_type = 4 := by
  unfold gotoAttrs at h
  split at h <;> simp_all [RouteAttr.new]

theorem mem_ipProtoAttrs {rule : Rule} {a : RouteAttr}
    (h : a ∈ ipProtoAttrs rule) : a.rta_type = 22 := by
  unfold ipProtoAttrs at h
  split at h <;> simp_all [RouteAttr.new]

theorem mem_dportAttrs {rule : Rule} {a : RouteAttr}
    (h : a ∈ dportAttrs rule) : a.rta_type = 24 := by
  unfold dportAttrs at h
  rcases hd : rule.dport with _ | d <;> rw [hd] at h <;>
    simp_all [RouteAttr.new]

theorem mem_sportAttrs {rule : Rule} {a : RouteAttr}
    (h : a ∈ sportAttrs rule) : a.rta_type = 23 := by
  unfold sportAttrs at h
  rcases hs : rule.sport with _ | s <;> rw [hs] at h <;>
    simp_all [RouteAttr.new]

theorem mem_uidAttrs {rule : Rule} {a : RouteAttr}
    (h : a ∈ uidAttrs rule) : a.rta_type = 20 := by
  unfold uidAttrs at h
  rcases hu : rule.uid_range with _ | u <;> rw [hu] at h <;>
    simp_all [RouteAttr.new]

theorem mem_protocolAttrs {rule : Rule} {a : RouteAttr}
    (h : a ∈ protocolAttrs rule) : a.rta_type = 21 := by
  unfold protocolAttrs at h
  split at h <;> simp_all [RouteAttr.new]

/-- Attributes of type 14 or 13 can only come from the suppress block, so
their presence forces a positive one-byte table field. -/
theorem restAttrs_suppress_gate (rule : Rule) (tb : Nat) (a : RouteAttr)
    (ha : a ∈ restAttrs rule tb)
    (hty : a.rta_type = 14 ∨ a.rta_type = 13) : 0 < tb := by
  unfold restAttrs at ha
  simp only [List.mem_append] at ha
  rcases ha with ((((((((((((ha | ha) | ha) | ha) | ha) | ha) | ha) | ha) |
    ha) | ha) | ha) | ha) | ha) | ha
  · have := mem_priorityAttrs ha; omega
  · have := mem_markAttrs ha; omega
  · have := mem_flowAttrs ha; omega
  · have := mem_tunAttrs ha; omega
  · have := mem_tableWideAttrs ha; omega
  · exact mem_suppressAttrs ha
  · have := mem_iifAttrs ha; omega
  · have := mem_oifAttrs ha; omega
  · have := mem_gotoAttrs ha; omega
  · have := mem_ipProtoAttrs ha; omega
  · have := mem_dportAttrs ha; omega
  · have := mem_sportAttrs ha; omega
  · have := mem_uidAttrs ha; omega
  · have := mem_protocolAttrs ha; omega

/-- `handleRule` fails with the mixed-family error whenever source and
destination prefixes of different families are both present. -/
theorem handleRule_mixed (rule : Rule) (flags : Nat) (s d : IpNet)
    (hs : rule.src = some s) (hd : rule.dst = some d)
    (hfam : ipNetFamily s ≠ ipNetFamily d) :
    handleRule rule flags = .error mixedFamilyMsg := by
  unfold handleRule dstStep srcStep
  rw [hd, hs]
  cases d <;> cases s <;>
    simp_all [ipNetFamily, AF_INET, AF_INET6, mixedFamilyMsg]

/-! ## Claim theorems -/

/-- C1: for every `Rule` whose `src` and `dst` are both present and are
prefixes of different address families, both `add(rule)` and
`delete(rule)` fail with the mixed-family error before any call to the
Socket Transport is made (the result is the local error, for every
possible transport). -/
theorem add_del_mixed_family_fail_before_transport
    (rule : Rule) (s d : IpNet)
    (transport : RouteMessage → List RouteAttr → Except String Unit)
    (hs : rule.src = some s) (hd : rule.dst = some d)
    (hfam : ipNetFamily s ≠ ipNetFamily d) :
    RuleHandle.add transport rule = .error mixedFamilyMsg ∧
    RuleHandle.del transport rule = .error mixedFamilyMsg := by
  unfold RuleHandle.add RuleHandle.del
  rw [handleRule_mixed rule _ s d hs hd hfam,
    handleRule_mixed rule _ s d hs hd hfam]
  exact ⟨rfl, rfl⟩

/-- Witness for C1: a concrete rule with an IPv4 source and an IPv6
destination fails with the mixed-family error on both paths, for a
transport that would otherwise succeed. -/
theorem add_del_mixed_family_fail_before_transport_witness :
    RuleHandle.add (fun _ _ => .ok ())
      { Rule.new with src := some (.v4 [10, 0, 0, 1] 32),
                      dst := some (.v6 (List.replicate 16 0) 128) } =
      .error mixedFamilyMsg ∧
    RuleHandle.del (fun _ _ => .ok ())
      { Rule.new with src := some (.v4 [10, 0, 0, 1] 32),
                      dst := some (.v6 (List.replicate 16 0) 128) } =
      .error mixedFamilyMsg :=
  add_del_mixed_family_fail_before_transport _
    (.v4 [10, 0, 0, 1] 32) (.v6 (List.replicate 16 0) 128) _
    rfl rfl (by decide)

/-- C2: parsing a diagnostics response buffer shorter than 72 bytes as a
TCP or UDP diagnostic record fails with the short-read error (the source
`unwrap`s the header parse, modelled as the error escaping). -/
theorem parse_short_buffer_fails (buf : List Nat) (h : buf.length < 72) :
    InetDiagTcpResp.fromBytes buf =
      .error ("socket data short read: " ++ toString buf.length) ∧
    InetDiagUdpResp.fromBytes buf =
      .error ("socket data short read: " ++ toString buf.length) := by
  have h72 : buf.length < SockDiag.LEN := h
  unfold InetDiagTcpResp.fromBytes InetDiagUdpResp.fromBytes
    SockDiag.deserialize
  rw [if_pos h72]
  exact ⟨rfl, rfl⟩

/-- Witness for C2: the empty buffer fails with the short-read error on
both the TCP and UDP parse paths. -/
theorem parse_short_buffer_fails_witness :
    InetDiagTcpResp.fromBytes [] =
      .error ("socket data short read: " ++ toString (List.length ([] : List Nat))) ∧
    InetDiagUdpResp.fromBytes [] =
      .error ("socket data short read: " ++ toString (List.length ([] : List Nat))) :=
  parse_short_buffer_fails [] (by decide)

/-- C6: for every diagnostics response buffer of at least 72 bytes, the
parsed source and destination addresses are IPv4 addresses read from the
first 4 bytes of each 16-byte slot (offsets 8 and 24), with the remaining
12 bytes skipped, regardless of the response's family byte (the statement
holds for every buffer, whatever `buf.getD 0 0` is). -/
theorem deserialize_reads_v4_unconditionally (buf : List Nat)
    (h : 72 ≤ buf.length) :
    ∃ s, SockDiag.deserialize buf = .ok s ∧
      s.family = buf.getD 0 0 ∧
      s.id.src_ip = IpAddr.v4 (buf.getD 8 0) (buf.getD 9 0)
        (buf.getD 10 0) (buf.getD 11 0) ∧
      s.id.dst_ip = IpAddr.v4 (buf.getD 24 0) (buf.getD 25 0)
        (buf.getD 26 0) (buf.getD 27 0) := by
  unfold SockDiag.deserialize
  rw [if_neg (by unfold SockDiag.LEN SockDiagId.LEN; omega)]
  exact ⟨_, rfl, rfl, rfl, rfl⟩

/-- Witness for C6: a 72-byte buffer with family byte 10 (`AF_INET6`) is
still parsed with IPv4 addresses taken from bytes 8-11 and 24-27. -/
theorem deserialize_reads_v4_unconditionally_witness :
    ∃ s, SockDiag.deserialize (10 :: List.range 71) = .ok s ∧
      s.family = (10 :: List.range 71).getD 0 0 ∧
      s.id.src_ip = IpAddr.v4 ((10 :: List.range 71).getD 8 0)
        ((10 :: List.range 71).getD 9 0) ((10 :: List.range 71).getD 10 0)
        ((10 :: List.range 71).getD 11 0) ∧
      s.id.dst_ip = IpAddr.v4 ((10 :: List.range 71).getD 24 0)
        ((10 :: List.range 71).getD 25 0) ((10 :: List.range 71).getD 26 0)
        ((10 :: List.range 71).getD 27 0) :=
  deserialize_reads_v4_unconditionally (10 :: List.range 71) (by decide)

/-- C9: for every family, the TCP diagnostics request has protocol TCP,
extension bitmask exactly 6 (the "basic info" code-2 and "vegas info"
code-3 bits under bit = 1 <<< (code-1)) and state filter 0xfff; the UDP
request has protocol UDP and additionally sets the "memory info" code-1
bit. -/
theorem diag_request_fields (family : Nat) :
    (SockDiagReq.request_tcp_info family).protocol = IPPROTO_TCP ∧
    (SockDiagReq.request_tcp_info family).ext = 6 ∧
    (SockDiagReq.request_tcp_info family).ext =
      (1 <<< (INET_DIAG_INFO - 1)) ||| (1 <<< (INET_DIAG_VEGASINFO - 1)) ∧
    (SockDiagReq.request_tcp_info family).states = 0xfff ∧
    (SockDiagReq.request_udp_info family).protocol = IPPROTO_UDP ∧
    (SockDiagReq.request_udp_info family).ext =
      (SockDiagReq.request_tcp_info family).ext |||
        (1 <<< (INET_DIAG_MEMINFO - 1)) ∧
    (SockDiagReq.request_udp_info family).ext = 7 ∧
    (SockDiagReq.request_udp_info family).states = 0xfff :=
  ⟨rfl, rfl, rfl, rfl, rfl, rfl, rfl, rfl⟩

/-- C3: the suppress-prefixlen (type 14) and suppress-ifgroup (type 13)
TLVs are emitted only when the layout's one-byte table field is nonzero,
i.e. only when `1 ≤ rule.table ≤ 255`; for `table = 300` and
`suppress_prefixlen = 0` no type-14 TLV is emitted (only the wide-table
type 15), while for `table = 100` and `suppress_prefixlen = 5` a type-14
TLV carrying 5 is emitted. -/
theorem suppress_tlvs_gated_on_table_byte (rule : Rule) (flags : Nat)
    (msg : RouteMessage) (attrs : List RouteAttr)
    (h : handleRule rule flags = .ok (msg, attrs)) :
    ((∃ a ∈ attrs, a.rta_type = 14 ∨ a.rta_type = 13) →
      1 ≤ rule.table ∧ rule.table ≤ 255) ∧
    (handleRule { Rule.new with table := 300, suppress_prefixlen := 0 }
        (NLM_F_CREATE ||| NLM_F_EXCL ||| NLM_F_ACK)).map
      (fun p => p.2.map RouteAttr.rta_type) = .ok [15] ∧
    (handleRule { Rule.new with table := 100, suppress_prefixlen := 5 }
        (NLM_F_CREATE ||| NLM_F_EXCL ||| NLM_F_ACK)).map (fun p => p.2) =
      .ok [RouteAttr.new 14 (leBytes 4 5)] := by
  refine ⟨?_, by decide, by decide⟩
  rintro ⟨a, hmem, hty⟩
  obtain ⟨pre, hattrs, hpre, -, -⟩ := handleRule_ok_decomp rule flags msg attrs h
  subst hattrs
  rcases List.mem_append.1 hmem with hm | hm
  · rcases hpre a hm with h1 | h1 <;>
      simp only [RTA_DST, RTA_SRC] at h1 <;> omega
  · have hpos := restAttrs_suppress_gate rule _ a hm hty
    rw [msgInit_table] at hpos
    split at hpos
    · rename_i hcond
      omega
    · simp [RT_TABLE_UNSPEC] at hpos

/-- Witness for C3: the trivial rule lowers successfully (discharging the
hypothesis of the gate theorem) and the two boundary cases evaluate as
claimed. -/
theorem suppress_tlvs_gated_on_table_byte_witness :
    ((∃ a ∈ ([] : List RouteAttr), a.rta_type = 14 ∨ a.rta_type = 13) →
      1 ≤ Rule.new.table ∧ Rule.new.table ≤ 255) ∧
    (handleRule { Rule.new with table := 300, suppress_prefixlen := 0 }
        (NLM_F_CREATE ||| NLM_F_EXCL ||| NLM_F_ACK)).map
      (fun p => p.2.map RouteAttr.rta_type) = .ok [15] ∧
    (handleRule { Rule.new with table := 100, suppress_prefixlen := 5 }
        (NLM_F_CREATE ||| NLM_F_EXCL ||| NLM_F_ACK)).map (fun p => p.2) =
      .ok [RouteAttr.new 14 (leBytes 4 5)] :=
  suppress_tlvs_gated_on_table_byte Rule.new NLM_F_ACK
    (RouteMessage.mk 2 0 0 0 0 3 0 0 0) [] (by decide)

/-- C4: for every rule with `table ≥ 256` the lowered attribute list
contains a wide table TLV (type 15) carrying the table value as a 32-bit
integer, and the one-byte layout table field stays at the unspecified
default. -/
theorem wide_table_tlv (rule : Rule) (flags : Nat)
    (msg : RouteMessage) (attrs : List RouteAttr)
    (h : handleRule rule flags = .ok (msg, attrs))
    (ht : (256 : Int) ≤ rule.table) :
    RouteAttr.new 15 (leBytes 4 rule.table.toNat) ∈ attrs ∧
    msg.table = RT_TABLE_UNSPEC := by
  obtain ⟨pre, hattrs, -, htab, -⟩ := handleRule_ok_decomp rule flags msg attrs h
  subst hattrs
  constructor
  · apply List.mem_append_right
    simp only [restAttrs, List.mem_append]
    refine Or.inl (Or.inl (Or.inl (Or.inl (Or.inl (Or.inl (Or.inl (Or.inl
      (Or.inl (Or.inr ?_)))))))))
    unfold tableWideAttrs
    rw [if_pos ht]
    exact List.mem_singleton.2 rfl
  · rw [htab, msgInit_table, if_neg (by omega)]

/-- Witness for C4: `table = 300` yields the type-15 TLV carrying 300
(little-endian `[44, 1, 0, 0]`) and a zero one-byte table field. -/
theorem wide_table_tlv_witness :
    RouteAttr.new 15 (leBytes 4 ((300 : Int).toNat)) ∈
      [RouteAttr.mk 15 [44, 1, 0, 0]] ∧
    (RouteMessage.mk 2 0 0 0 0 3 0 0 0).table = RT_TABLE_UNSPEC :=
  wide_table_tlv { Rule.new with table := 300 } NLM_F_ACK
    (RouteMessage.mk 2 0 0 0 0 3 0 0 0) [RouteAttr.mk 15 [44, 1, 0, 0]]
    (by decide) (by decide)

/-- C5: whenever `mark ≠ 0` or a mask is present, the attribute list
contains a TLV carrying `mark` as a 32-bit value with type code 10,
immediately followed — when the mask is present — by a second TLV carrying
`mask` with the identical type code 10. -/
theorem mark_mask_share_type_code (rule : Rule) (flags : Nat)
    (msg : RouteMessage) (attrs : List RouteAttr)
    (h : handleRule rule flags = .ok (msg, attrs))
    (hm : rule.mark ≠ 0 ∨ rule.mask.isSome) :
    ∃ l1 l2, attrs = l1 ++
      (RouteAttr.new 10 (leBytes 4 rule.mark) ::
        (match rule.mask with
         | some mask => [RouteAttr.new 10 (leBytes 4 mask)]
         | none => [])) ++ l2 := by
  obtain ⟨pre, hattrs, -, -, -⟩ := handleRule_ok_decomp rule flags msg attrs h
  subst hattrs
  refine ⟨pre ++ priorityAttrs rule,
    flowAttrs rule ++ tunAttrs rule ++ tableWideAttrs rule ++
    suppressAttrs rule (msgInit rule flags).table ++ iifAttrs rule ++
    oifAttrs rule ++ gotoAttrs rule ++ ipProtoAttrs rule ++
    dportAttrs rule ++ sportAttrs rule ++ uidAttrs rule ++
    protocolAttrs rule, ?_⟩
  unfold restAttrs markAttrs
  rw [if_pos hm]
  simp [List.append_assoc]

/-- Witness for C5: `mark = 7`, `mask = some 3` yields two adjacent
type-10 TLVs carrying 7 then 3. -/
theorem mark_mask_share_type_code_witness :
    ∃ l1 l2,
      ([RouteAttr.mk 10 [7, 0, 0, 0], RouteAttr.mk 10 [3, 0, 0, 0]] :
          List RouteAttr) =
        l1 ++ (RouteAttr.new 10 (leBytes 4 7) ::
          [RouteAttr.new 10 (leBytes 4 3)]) ++ l2 :=
  mark_mask_share_type_code { Rule.new with mark := 7, mask := some 3 }
    NLM_F_ACK (RouteMessage.mk 2 0 0 0 0 3 0 0 0)
    [RouteAttr.mk 10 [7, 0, 0, 0], RouteAttr.mk 10 [3, 0, 0, 0]]
    (by decide) (by decide)

/-- C8: whenever `goto ≥ 0` the lowered layout's route-type is forced to
the goto action code 2 (overriding any earlier value) and a type-4 TLV
carrying the goto target as a 32-bit integer is emitted. -/
theorem goto_forces_route_type (rule : Rule) (flags : Nat)
    (msg : RouteMessage) (attrs : List RouteAttr)
    (h : handleRule rule flags = .ok (msg, attrs))
    (hg : (0 : Int) ≤ rule.goto) :
    msg.route_type = 2 ∧
    RouteAttr.new 4 (leBytes 4 rule.goto.toNat) ∈ attrs := by
  obtain ⟨pre, hattrs, -, -, hrt⟩ := handleRule_ok_decomp rule flags msg attrs h
  subst hattrs
  refine ⟨hrt hg, ?_⟩
  apply List.mem_append_right
  simp only [restAttrs, List.mem_append]
  refine Or.inl (Or.inl (Or.inl (Or.inl (Or.inl (Or.inr ?_)))))
  unfold gotoAttrs
  rw [if_pos hg]
  exact List.mem_singleton.2 rfl

/-- Witness for C8: `goto = 42` with an explicit `rule_type = 5` still
lowers to route-type 2 and emits the type-4 TLV carrying 42. -/
theorem goto_forces_route_type_witness :
    (RouteMessage.mk 2 0 0 0 0 3 0 2 0).route_type = 2 ∧
    RouteAttr.new 4 (leBytes 4 ((42 : Int).toNat)) ∈
      [RouteAttr.mk 4 [42, 0, 0, 0]] :=
  goto_forces_route_type { Rule.new with goto := 42, rule_type := 5 }
    NLM_F_ACK (RouteMessage.mk 2 0 0 0 0 3 0 2 0)
    [RouteAttr.mk 4 [42, 0, 0, 0]] (by decide) (by decide)

/-- C7: a diagnostics request with two IPv4 identifier addresses
serializes to exactly 56 bytes, each address stored left-zero-padded into
bytes 12-15 of its 16-byte slot (the slots start at buffer offsets 12 and
28); with two IPv6 addresses each fills all 16 bytes of its slot. -/
theorem sock_diag_req_serialize_slots (r : SockDiagReq) :
    (∀ a b c d a' b' c' d',
      r.id.src_ip = .v4 a b c d → r.id.dst_ip = .v4 a' b' c' d' →
      ∃ l, SockDiagReq.serialize r = .ok l ∧ l.length = 56 ∧
        (l.drop 12).take 16 = List.replicate 12 0 ++ [a, b, c, d] ∧
        (l.drop 28).take 16 = List.replicate 12 0 ++ [a', b', c', d']) ∧
    (∀ o o', r.id.src_ip = .v6 o → r.id.dst_ip = .v6 o' →
      o.length = 16 → o'.length = 16 →
      ∃ l, SockDiagReq.serialize r = .ok l ∧ l.length = 56 ∧
        (l.drop 12).take 16 = o ∧ (l.drop 28).take 16 = o') := by
  constructor
  · intro a b c d a' b' c' d' hsrc hdst
    unfold SockDiagReq.serialize
    rw [hsrc, hdst]
    exact ⟨_, rfl, rfl, rfl, rfl⟩
  · intro o o' hsrc hdst ho ho'
    unfold SockDiagReq.serialize
    rw [hsrc, hdst]
    refine ⟨_, rfl, ?_, ?_, ?_⟩
    · simp [leBytes_length, beBytes2, ho, ho']
    · have hd : ([r.family, r.protocol, r.ext, r.pad] ++ leBytes 4 r.states ++
          beBytes2 r.id.src_port ++ beBytes2 r.id.dst_port ++ o ++ o' ++
          leBytes 4 r.id.interface ++ leBytes 4 r.id.cookie.1 ++
          leBytes 4 r.id.cookie.2).drop 12 =
          o ++ (o' ++ (leBytes 4 r.id.interface ++
            (leBytes 4 r.id.cookie.1 ++ leBytes 4 r.id.cookie.2))) := by
        simp [leBytes, beBytes2]
      rw [hd, ← ho, List.take_left]
    · have hd : ([r.family, r.protocol, r.ext, r.pad] ++ leBytes 4 r.states ++
          beBytes2 r.id.src_port ++ beBytes2 r.id.dst_port ++ o ++ o' ++
          leBytes 4 r.id.interface ++ leBytes 4 r.id.cookie.1 ++
          leBytes 4 r.id.cookie.2).drop 12 =
          o ++ (o' ++ (leBytes 4 r.id.interface ++
            (leBytes 4 r.id.cookie.1 ++ leBytes 4 r.id.cookie.2))) := by
        simp [leBytes, beBytes2]
      have h28 : (28 : Nat) = 12 + 16 := by omega
      rw [h28, ← List.drop_drop, hd, ← ho, List.drop_left, ho, ← ho',
        List.take_left]

/-- Witness for C7: a concrete v4/v4 request serializes to 56 bytes with
the addresses in bytes 12-15 of their slots, and a concrete v6/v6 request
fills both 16-byte slots. -/
theorem sock_diag_req_serialize_slots_witness :
    (∃ l, SockDiagReq.serialize
        { SockDiagReq.request_tcp_info 2 with
          id := { SockDiagId.new with
                  src_ip := .v4 1 2 3 4
                  dst_ip := .v4 5 6 7 8 } } = .ok l ∧
      l.length = 56 ∧
      (l.drop 12).take 16 = List.replicate 12 0 ++ [1, 2, 3, 4] ∧
      (l.drop 28).take 16 = List.replicate 12 0 ++ [5, 6, 7, 8]) ∧
    (∃ l, SockDiagReq.serialize
        { SockDiagReq.request_tcp_info 10 with
          id := { SockDiagId.new with
                  src_ip := .v6 (List.replicate 16 3)
                  dst_ip := .v6 (List.replicate 16 4) } } = .ok l ∧
      l.length = 56 ∧
      (l.drop 12).take 16 = List.replicate 16 3 ∧
      (l.drop 28).take 16 = List.replicate 16 4) :=
  ⟨(sock_diag_req_serialize_slots _).1 1 2 3 4 5 6 7 8 rfl rfl,
   (sock_diag_req_serialize_slots _).2 (List.replicate 16 3)
     (List.replicate 16 4) rfl rfl (by decide) (by decide)⟩

/-- C10: when matching TLV extension attributes in a diagnostics response,
the attribute's 16-bit type is truncated to its low 8 bits before
comparison: any attribute whose type is congruent to 2 mod 256 populates
the TCP record, congruent to 16 mod 256 the BBR record, and congruent to
1 mod 256 the Memory record on the UDP path — not only the exact kernel
type codes. -/
theorem ext_type_truncated_mod_256 (buf : List Nat) (msg : SockDiag)
    (a : RouteAttr)
    (hm : SockDiag.deserialize buf = .ok msg)
    (ha : routeAttrsFrom (buf.drop SockDiag.LEN) = [a]) :
    (∀ d, a.rta_type % 256 = INET_DIAG_INFO →
      TcpDiag.decode a.payload = .ok d →
      InetDiagTcpResp.fromBytes buf = .ok ⟨msg, d, TcpBbrDiag.zero⟩) ∧
    (∀ d, a.rta_type % 256 = INET_DIAG_BBRINFO →
      TcpBbrDiag.decode a.payload = .ok d →
      InetDiagTcpResp.fromBytes buf = .ok ⟨msg, TcpDiag.zero, d⟩) ∧
    (∀ d, a.rta_type % 256 = INET_DIAG_MEMINFO →
      Memory.decode a.payload = .ok d →
      InetDiagUdpResp.fromBytes buf = .ok ⟨msg, d⟩) := by
  unfold InetDiagTcpResp.fromBytes InetDiagUdpResp.fromBytes
  rw [hm, ha]
  refine ⟨?_, ?_, ?_⟩
  · intro d h2 hdec
    simp [List.foldlM, InetDiagTcpResp.step, h2, hdec, Except.map]
  · intro d h16 hdec
    simp [List.foldlM, InetDiagTcpResp.step, h16, hdec, Except.map,
      INET_DIAG_INFO, INET_DIAG_BBRINFO]
  · intro d h1 hdec
    simp [List.foldlM, InetDiagUdpResp.step, h1, hdec, Except.map]

set_option maxRecDepth 100000 in
/-- Witness for C10: response buffers whose single attribute has 16-bit
type 258 (= 2 mod 256), 272 (= 16 mod 256) and 257 (= 1 mod 256) populate
the TCP, BBR and Memory records respectively. -/
theorem ext_type_truncated_mod_256_witness :
    InetDiagTcpResp.fromBytes
        (List.replicate 72 0 ++ [236, 0, 2, 1] ++
          (7 :: List.replicate 231 0)) =
      .ok ⟨⟨0, 0, 0, 0, ⟨0, 0, .v4 0 0 0 0, .v4 0 0 0 0, 0, (0, 0)⟩,
            0, 0, 0, 0, 0⟩,
          { TcpDiag.zero with state := 7 }, TcpBbrDiag.zero⟩ ∧
    InetDiagTcpResp.fromBytes
        (List.replicate 72 0 ++ [24, 0, 16, 1] ++
          (9 :: List.replicate 19 0)) =
      .ok ⟨⟨0, 0, 0, 0, ⟨0, 0, .v4 0 0 0 0, .v4 0 0 0 0, 0, (0, 0)⟩,
            0, 0, 0, 0, 0⟩,
          TcpDiag.zero, { TcpBbrDiag.zero with bandwidth := 9 }⟩ ∧
    InetDiagUdpResp.fromBytes
        (List.replicate 72 0 ++ [20, 0, 1, 1] ++
          (5 :: List.replicate 15 0)) =
      .ok ⟨⟨0, 0, 0, 0, ⟨0, 0, .v4 0 0 0 0, .v4 0 0 0 0, 0, (0, 0)⟩,
            0, 0, 0, 0, 0⟩,
          { Memory.zero with rmem := 5 }⟩ :=
  ⟨(ext_type_truncated_mod_256 _ _
      (RouteAttr.mk 258 (7 :: List.replicate 231 0))
      (by decide) (by decide)).1
    { TcpDiag.zero with state := 7 } (by decide) (by decide),
   (ext_type_truncated_mod_256 _ _
      (RouteAttr.mk 272 (9 :: List.replicate 19 0))
      (by decide) (by decide)).2.1
    { TcpBbrDiag.zero with bandwidth := 9 } (by decide) (by decide),
   (ext_type_truncated_mod_256 _ _
      (RouteAttr.mk 257 (5 :: List.replicate 15 0))
      (by decide) (by decide)).2.2
    { Memory.zero with rmem := 5 } (by decide) (by decide)⟩

end Rsln
